import Mathlib

/-!
Shallow embedding of the meeting time-slot / availability logic, the
meeting-form auto-adjust and submit validation (src/components/MeetingModal),
the role-based permission gate (AppSidebar / UserDashboard), and the
Teams-meeting provisioning function (supabase/functions/create-teams-meeting).

JavaScript strings are Lean `String`s; JS string comparison (`<`, `>`) is
modelled by the code-unit lexicographic `lexLt` on the character list, and
`split(":")`/`Number` by structurally recursive `splitFields`/`charsToNat?`
(the core `String.splitOn` is not kernel-reducible).  JS `Date` values are
modelled by an absolute instant in minutes (`Int`), equivalently a calendar
day number (`Int`, minutes / 1440) plus a time of day; this captures exactly
the arithmetic the component performs (`setHours`, `getTime`, `+ 60*60*1000`,
date-only comparison).  Fallible steps return `Option`/`Except`, and the
serverless handler threads an explicit trace of outbound Graph calls so that
"before any network call" is a statement about that trace.
-/

/-- JS `s.padStart(2, "0")`: left-pad with `'0'` to length 2. -/
def padStart2 (s : String) : String :=
  if s.length < 2 then String.mk (List.replicate (2 - s.length) '0') ++ s else s

/-- Body of the inner loop of `generateTimeSlots`:
`` `${hour.toString().padStart(2,"0")}:${minute.toString().padStart(2,"0")}` ``. -/
def mkSlot (hour minute : Nat) : String :=
  padStart2 (toString hour) ++ ":" ++ padStart2 (toString minute)

/-- Function `generateTimeSlots` from MeetingModal: for hour 0..23 and minute
0,15,30,45 push the zero-padded "HH:MM" string. -/
def generateTimeSlots : List String :=
  (List.range 24).flatMap fun hour =>
    (List.range 4).map fun q =>
      mkSlot hour (q * 15)

/-- Constant `TIME_SLOTS = generateTimeSlots()`. -/
def TIME_SLOTS : List String := generateTimeSlots

/-- JS `String.prototype.split` with a single-character separator, on the
character list of the string. -/
def splitFields (sep : Char) : List Char → List (List Char)
  | [] => [[]]
  | c :: rest =>
      match splitFields sep rest with
      | f :: fs => if c = sep then [] :: f :: fs else (c :: f) :: fs
      | [] => if c = sep then [[], []] else [[c]]

/-- Decimal digit parse of a character list; `none` on the empty list or any
non-digit character (JS `Number` yields `NaN` there, which every comparison
in this code base treats as false, and `0` for `""`; the only strings parsed
by the app are well-formed "HH:MM" strings, on which the two semantics
agree). -/
def charsToNat? : List Char → Option Nat
  | [] => none
  | l => l.foldl (fun acc c =>
      acc.bind fun n => if c.isDigit then some (10 * n + (c.toNat - 48)) else none) (some 0)

/-- JS `const [h, m] = slot.split(":").map(Number)` as used throughout
MeetingModal; a missing or malformed component defaults to 0. -/
def parseSlot (s : String) : Nat × Nat :=
  match (splitFields ':' s.data).map (fun t => (charsToNat? t).getD 0) with
  | h :: m :: _ => (h, m)
  | _ => (0, 0)

/-- JS `<` on strings: lexicographic comparison by code unit. -/
def lexLt : List Char → List Char → Bool
  | [], [] => false
  | [], _ :: _ => true
  | _ :: _, [] => false
  | a :: as, b :: bs => if a < b then true else if b < a then false else lexLt as bs

/-- JS `s < t` (so `t > s`) on strings. -/
def strLtB (s t : String) : Bool := lexLt s.data t.data

/-- Minutes after midnight denoted by an "HH:MM" slot string. -/
def slotMinutesN (s : String) : Nat :=
  60 * (parseSlot s).1 + (parseSlot s).2

/-- Result of date-fns `format(d, "HH:mm")` applied to a `Date` whose time of day is
`totalMin` minutes after midnight. -/
def formatHM (totalMin : Nat) : String :=
  mkSlot (totalMin / 60) (totalMin % 60)

/-- Shape of a slot string: two digits, a colon, two digits. -/
def isHHMM (s : String) : Bool :=
  match s.data with
  | [h1, h2, c, m1, m2] => h1.isDigit && h2.isDigit && (c == ':') && m1.isDigit && m2.isDigit
  | _ => false

/-- The component's `now` / `today` values: current calendar day (as a day
number) and current wall-clock hour and minute.  Passed explicitly, where the
component reads `new Date()`. -/
structure WallClock where
  day : Int
  hour : Nat
  minute : Nat

/-- Function `getAvailableTimeSlots(selectedDate, isStart)` from MeetingModal.
`selectedDate` is `none` for an unset date picker; a set picker contributes
only its calendar day (the source compares date-only copies via
`getTime()`).  The `isStart` argument is accepted and, exactly as in the
source, never used. -/
def getAvailableTimeSlots (now : WallClock) (selectedDate : Option Int) (isStart : Bool) :
    List String :=
  match selectedDate with
  | none => TIME_SLOTS
  | some d =>
    let isToday := d = now.day
    if ¬isToday then TIME_SLOTS
    else
      TIME_SLOTS.filter fun slot =>
        let p := parseSlot slot
        if p.1 > now.hour then true
        else if p.1 = now.hour ∧ p.2 > now.minute then true
        else false

/-- The `availableEndTimeSlots` memo from MeetingModal: the end-field slots,
further restricted to `slot > startTime` when start and end fall on the same
calendar day (`toDateString()` equality, i.e. day-number equality here). -/
def availableEndTimeSlots (now : WallClock) (startDate endDate : Option Int)
    (startTime : String) : List String :=
  let slots := getAvailableTimeSlots now endDate false
  match startDate, endDate with
  | some sd, some ed => if sd = ed then slots.filter (fun slot => strLtB startTime slot) else slots
  | _, _ => slots

/-- Absolute instant, in minutes: calendar day `day` with time of day taken
from the "HH:MM" string `time` (`setHours(h, m, 0, 0)` on that day). -/
def instantOf (day : Int) (time : String) : Int :=
  1440 * day + (slotMinutesN time : Int)

/-- The four pieces of date/time state of MeetingModal
(`startDate`/`startTime`/`endDate`/`endTime`). -/
structure MeetingTimes where
  startDate : Option Int
  startTime : String
  endDate : Option Int
  endTime : String
deriving DecidableEq

/-- The auto-adjust `useEffect` of MeetingModal (deps `[startDate, startTime]`):
if start and end are both set and the end instant is ≤ the start instant, set
the end to the instant one hour (60 minutes) after the start.  Day and time of
day of the new end are recovered from the new absolute instant by floor
division (`Int.ediv`/`Int.emod` by the positive constant 1440 is floor
division, matching JS `Date` arithmetic). -/
def autoAdjustEnd (st : MeetingTimes) : MeetingTimes :=
  match st.startDate with
  | none => st
  | some sd =>
    if st.startTime = "" then st
    else
      let startInstant := instantOf sd st.startTime
      match st.endDate with
      | none => st
      | some ed =>
        if st.endTime = "" then st
        else
          let endInstant := instantOf ed st.endTime
          if endInstant ≤ startInstant then
            let newEnd := startInstant + 60
            { st with endDate := some (newEnd / 1440),
                      endTime := formatHM (newEnd % 1440).toNat }
          else st

/-- A user edit of the date/time state: changing the start side re-runs the
auto-adjust effect (its dependency array is `[startDate, startTime]`);
changing the end side does not. -/
inductive Edit where
  | setStart (d : Option Int) (t : String)
  | setEnd (d : Option Int) (t : String)

/-- State transition of MeetingModal's date/time state under one edit. -/
def applyEdit (st : MeetingTimes) (e : Edit) : MeetingTimes :=
  match e with
  | .setStart d t => autoAdjustEnd { st with startDate := d, startTime := t }
  | .setEnd d t => { st with endDate := d, endTime := t }

/-- Absolute end instant of the state, when an end date is set. -/
def endInstant? (st : MeetingTimes) : Option Int :=
  st.endDate.map fun ed => instantOf ed st.endTime

/-- Serialization of an absolute instant (`Date.prototype.toISOString`);
modelled as the decimal rendering of the minute count, which the claims never
inspect beyond the absent-date branch of `buildISODateTime`. -/
def isoOfInstant (m : Int) : String := toString m

/-- Function `buildISODateTime(date, time)` from MeetingModal: empty string for an
absent date, otherwise the serialized instant of that day at `time`. -/
def buildISODateTime (date : Option Int) (time : String) : String :=
  match date with
  | none => ""
  | some d => isoOfInstant (instantOf d time)

/-- Outcome of the `handleSubmit` validation phase of MeetingModal. -/
inductive SubmitOutcome where
  | missingFields
  | saved (start_time end_time : String)
deriving DecidableEq

/-- The `handleSubmit` guard of MeetingModal:
`if (!formData.subject || !startDate || !endDate)` show the "Missing fields"
toast and stop; otherwise build both instants and save the record. -/
def handleSubmit (subject : String) (startDate endDate : Option Int)
    (startTime endTime : String) : SubmitOutcome :=
  if subject = "" ∨ startDate = none ∨ endDate = none then .missingFields
  else .saved (buildISODateTime startDate startTime) (buildISODateTime endDate endTime)

/-- A `page_permissions` row: route plus one boolean flag per role. -/
structure PagePermission where
  route : String
  admin_access : Bool
  manager_access : Bool
  user_access : Bool
deriving DecidableEq

/-- The permission gate, as written in both AppSidebar's `menuItems` filter
and UserDashboard's `hasAccess`: `permissions.find(p => p.route === route)`,
allow when absent, otherwise switch on the role string with the user case sharing
the `default` arm. -/
def hasAccess (pagePermissions : List PagePermission) (userRole : String)
    (route : String) : Bool :=
  match pagePermissions.find? (fun p => p.route == route) with
  | none => true
  | some permission =>
    match userRole with
    | "admin" => permission.admin_access
    | "manager" => permission.manager_access
    | _ => permission.user_access

/-- AppSidebar's `menuItems`: `allMenuItems.filter(...)` keyed by route. -/
def menuItems (allRoutes : List String) (pagePermissions : List PagePermission)
    (userRole : String) : List String :=
  allRoutes.filter fun route => hasAccess pagePermissions userRole route

/-- An attendee of the provisioning request body. -/
structure Attendee where
  email : String
  name : String
deriving DecidableEq

/-- The JSON request body of create-teams-meeting, with each field `none`
when absent from the JSON.  JS truthiness of the destructured fields decides
validation: a missing or empty string is falsy, while an array — even an
empty one — is truthy. -/
structure MeetingRequest where
  subject : Option String
  attendees : Option (List Attendee)
  startTime : Option String
  endTime : Option String
deriving DecidableEq

/-- JS truthiness of an optional string field. -/
def truthyStr : Option String → Bool
  | none => false
  | some s => s != ""

/-- JS truthiness of an optional array field: any array is truthy. -/
def truthyList : Option (List Attendee) → Bool
  | none => false
  | some _ => true

/-- Fields of a successful Graph `onlineMeetings` response that the function
returns (`id`, `joinWebUrl`, `joinInformation`, echoed subject/start/end). -/
structure MeetingData where
  id : String
  joinUrl : String
  joinInformation : String
  subject : String
  startDateTime : String
  endDateTime : String
deriving DecidableEq

/-- The request body of the Graph `onlineMeetings` POST (lines 92-101):
start, end, subject, lobby bypass for everyone with dial-in bypass, all
presenters. -/
structure MeetingBody where
  startDateTime : String
  endDateTime : String
  subject : String
  lobbyScope : String
  isDialInBypassEnabled : Bool
  allowedPresenters : String
deriving DecidableEq

/-- Result of the Graph user-by-email GET lookup: the user's id, or any
non-ok response. -/
inductive LookupOutcome where
  | found (userId : String)
  | failed
deriving DecidableEq

/-- Result of the Graph `POST /users/{id}/onlineMeetings` call.  The failure
constructors mirror the `error.code` values the handler inspects
(`AuthenticationError`, `ResourceNotFound`) plus the generic fallback with an
optional `error.message`. -/
inductive CreateOutcome where
  | created (d : MeetingData)
  | authErrorCode
  | resourceNotFoundCode
  | otherFailure (msg : Option String)
deriving DecidableEq

/-- Oracle for the two Microsoft Graph endpoints `createOnlineMeeting`
talks to. -/
structure Graph where
  userLookup : String → LookupOutcome
  createMeeting : String → MeetingBody → CreateOutcome

/-- One outbound network request of a provisioning run. -/
inductive GraphCall where
  | tokenRequest
  | userLookup (email : String)
  | createMeeting (userId : String)
deriving DecidableEq

/-- The error taxonomy of the provisioner (spec section 7), carrying the
thrown message. -/
inductive ProvisionError where
  | organizerNotFound (msg : String)
  | meetingCreation (msg : String)
deriving DecidableEq

/-- The diagnostic thrown when the organizer lookup fails (lines 80-84):
names the two likely causes, a missing `User.Read.All` directory permission
or the user being absent from the tenant. -/
def organizerNotFoundMsg (email : String) : String :=
  "Cannot find user in Azure AD: " ++ email ++
    ". Please ensure the Azure App has User.Read.All permission with admin consent, " ++
    "or the user exists in your Azure AD tenant."

/-- Message for the `AuthenticationError` sub-case of meeting creation. -/
def graphAuthErrorMsg : String :=
  "Authentication error with Microsoft Graph. " ++
    "Please ensure the Azure App has OnlineMeetings.ReadWrite.All permission with admin consent."

/-- Message for the `ResourceNotFound` sub-case of meeting creation. -/
def noLicenseMsg (email : String) : String :=
  "User " ++ email ++ " does not have a Teams license or is not enabled for online meetings."

/-- Function `createOnlineMeeting(accessToken, meetingRequest, organizerEmail)`:
look the organizer up by email (first Graph call); on failure throw the
organizer diagnostic; otherwise build the meeting body and POST it (second
Graph call), mapping the two diagnosable error codes to their specialized
messages.  Returns the outcome together with the trace of Graph calls
issued. -/
def createOnlineMeeting (g : Graph) (subject startTime endTime : String)
    (organizerEmail : String) : Except ProvisionError MeetingData × List GraphCall :=
  match g.userLookup organizerEmail with
  | .failed =>
      (.error (.organizerNotFound (organizerNotFoundMsg organizerEmail)),
       [.userLookup organizerEmail])
  | .found uid =>
      let body : MeetingBody :=
        { startDateTime := startTime, endDateTime := endTime, subject := subject,
          lobbyScope := "everyone", isDialInBypassEnabled := true,
          allowedPresenters := "everyone" }
      let calls := [GraphCall.userLookup organizerEmail, GraphCall.createMeeting uid]
      match g.createMeeting uid body with
      | .created d => (.ok d, calls)
      | .authErrorCode => (.error (.meetingCreation graphAuthErrorMsg), calls)
      | .resourceNotFoundCode => (.error (.meetingCreation (noLicenseMsg organizerEmail)), calls)
      | .otherFailure m =>
          (.error (.meetingCreation (m.getD "Failed to create Teams meeting")), calls)

/-- The three Azure credential environment variables. -/
structure Env where
  tenantId : Option String
  clientId : Option String
  clientSecret : Option String
deriving DecidableEq

/-- The configuration-failure message of `getAccessToken`. -/
def configErrorMsg : String :=
  "Missing Azure credentials. Please configure AZURE_TENANT_ID, AZURE_CLIENT_ID, " ++
    "and AZURE_CLIENT_SECRET."

/-- Result of the Azure AD client-credential token exchange. -/
inductive TokenOutcome where
  | issued (token : String)
  | rejected (desc : Option String)

/-- The environment of one invocation of the serverless function: env vars,
the identity provider, the Graph endpoints, and the authenticated user
(`none` when `auth.getUser()` fails), as `(id, email)`. -/
structure World where
  env : Env
  token : TokenOutcome
  graph : Graph
  authedUser : Option (String × String)

/-- HTTP outcome of the serverless function (OPTIONS preflight aside). -/
inductive ServeOutcome where
  | status200 (m : MeetingData)
  | status400
  | status401
  | status405
  | status500 (msg : String)
deriving DecidableEq

/-- The `error.message` surfaced in the 500 response body. -/
def errorMessage : ProvisionError → String
  | .organizerNotFound m => m
  | .meetingCreation m => m

/-- Function `getAccessToken()`: throw the configuration error if any credential is
absent or empty — before any network traffic — otherwise perform the token
exchange (one network call). -/
def getAccessToken (w : World) : Except String String × List GraphCall :=
  if truthyStr w.env.tenantId && truthyStr w.env.clientId && truthyStr w.env.clientSecret then
    match w.token with
    | .issued tok => (.ok tok, [.tokenRequest])
    | .rejected d => (.error (d.getD "Failed to get access token from Azure AD"), [.tokenRequest])
  else (.error configErrorMsg, [])

/-- The post-validation part of the handler: token exchange, then
`createOnlineMeeting` as the authenticated user's email; any thrown error
becomes a 500 whose body carries the message.  The best-effort audit-log
write that follows success is omitted: its failure is swallowed and it
affects neither the response nor the Graph-call trace. -/
def provisionPhase (w : World) (email subject startTime endTime : String) :
    ServeOutcome × List GraphCall :=
  match getAccessToken w with
  | (.error msg, calls) => (.status500 msg, calls)
  | (.ok _tok, calls) =>
      match createOnlineMeeting w.graph subject startTime endTime email with
      | (.error e, calls2) => (.status500 (errorMessage e), calls ++ calls2)
      | (.ok m, calls2) => (.status200 m, calls ++ calls2)

/-- The `serve` handler of create-teams-meeting: 401 when unauthenticated,
405 for a non-POST verb, 400 when any of subject / attendees / startTime /
endTime is falsy ("Missing required fields") — each of these without any
network call — and otherwise the provisioning phase. -/
def serve (w : World) (method : String) (req : MeetingRequest) :
    ServeOutcome × List GraphCall :=
  match w.authedUser with
  | none => (.status401, [])
  | some (_uid, email) =>
    if method != "POST" then (.status405, [])
    else if !(truthyStr req.subject && truthyList req.attendees &&
              truthyStr req.startTime && truthyStr req.endTime) then
      (.status400, [])
    else
      provisionPhase w email (req.subject.getD "") (req.startTime.getD "") (req.endTime.getD "")

/-- Concrete Graph response data used by the concrete runs below. -/
def sampleMeeting : MeetingData :=
  { id := "m-1", joinUrl := "https://teams.microsoft.com/l/meetup-join/abc",
    joinInformation := "join info", subject := "Standup",
    startDateTime := "2025-06-01T09:00:00.000Z", endDateTime := "2025-06-01T10:00:00.000Z" }

/-- A fully healthy environment: credentials present, token issued, organizer
found, meeting created. -/
def sampleWorld : World :=
  { env := { tenantId := some "tenant-1", clientId := some "client-1",
             clientSecret := some "secret-1" },
    token := .issued "tok-1",
    graph := { userLookup := fun _ => .found "uid-1",
               createMeeting := fun _ _ => .created sampleMeeting },
    authedUser := some ("app-user-1", "organizer@example.com") }

/-- A request whose attendee list is present but empty. -/
def emptyAttendeesReq : MeetingRequest :=
  { subject := some "Standup", attendees := some [],
    startTime := some "2025-06-01T09:00:00.000Z", endTime := some "2025-06-01T10:00:00.000Z" }

/-- A Graph whose directory lookup fails for every email. -/
def failGraph : Graph :=
  { userLookup := fun _ => .failed,
    createMeeting := fun _ _ => .created sampleMeeting }

/-! ## Helper lemmas -/

theorem TIME_SLOTS_nodup : TIME_SLOTS.Nodup := by decide

theorem parseSlot_mkSlot : ∀ a < 24, ∀ b < 60, parseSlot (mkSlot a b) = (a, b) := by decide

theorem slotMinutesN_formatHM (n : Nat) (h : n < 1440) : slotMinutesN (formatHM n) = n := by
  have h24 : n / 60 < 24 := by omega
  have h60 : n % 60 < 60 := Nat.mod_lt _ (by norm_num)
  unfold slotMinutesN formatHM
  rw [parseSlot_mkSlot _ h24 _ h60]
  omega

theorem gats_sublist (now : WallClock) (d : Option Int) (b : Bool) :
    (getAvailableTimeSlots now d b).Sublist TIME_SLOTS := by
  unfold getAvailableTimeSlots
  cases d with
  | none => exact List.Sublist.refl _
  | some dd =>
      dsimp only
      split
      · exact List.Sublist.refl _
      · exact List.filter_sublist _

theorem aets_sublist (now : WallClock) (sd ed : Option Int) (startTime : String) :
    (availableEndTimeSlots now sd ed startTime).Sublist TIME_SLOTS := by
  unfold availableEndTimeSlots
  cases sd with
  | none => cases ed <;> exact gats_sublist ..
  | some s =>
      cases ed with
      | none => exact gats_sublist ..
      | some e =>
          dsimp only
          split
          · exact (List.filter_sublist _).trans (gats_sublist ..)
          · exact gats_sublist ..

theorem slotLater_iff (slot : String) (hh mm : Nat) :
    ((if (parseSlot slot).1 > hh then true
      else if (parseSlot slot).1 = hh ∧ (parseSlot slot).2 > mm then true else false) = true) ↔
      ((parseSlot slot).1 > hh ∨ ((parseSlot slot).1 = hh ∧ (parseSlot slot).2 > mm)) := by
  split_ifs with h1 h2 <;> simp_all

/-! ## Claim theorems -/

/-- C5: the time-slot generator deterministically produces exactly 96 slots,
pairwise strictly increasing as zero-padded "HH:MM" strings (JS string
order), adjacent slots 15 minutes apart, first "00:00", last "23:45". -/
theorem timeSlotGenerator_contract :
    generateTimeSlots.length = 96 ∧
    List.Pairwise (fun a b => strLtB a b = true) generateTimeSlots ∧
    (∀ i < 95, slotMinutesN (generateTimeSlots.getD (i + 1) "") =
        slotMinutesN (generateTimeSlots.getD i "") + 15) ∧
    generateTimeSlots.head? = some "00:00" ∧
    generateTimeSlots.getLast? = some "23:45" ∧
    generateTimeSlots.all isHHMM = true := by
  refine ⟨by decide, by decide, by decide, by decide, by decide, by decide⟩

/-- Witness for C5 at a concrete index: slot 0 is 15 minutes before slot 1. -/
theorem timeSlotGenerator_contract_witness :
    slotMinutesN (generateTimeSlots.getD 1 "") = slotMinutesN (generateTimeSlots.getD 0 "") + 15 :=
  timeSlotGenerator_contract.2.2.1 0 (by norm_num)

/-- C2: on a date other than the current day the availability filter returns
the full slot sequence unchanged; on the current day it keeps exactly the
slots strictly later than the current time of day (hour greater, or equal
hour with greater minute). -/
theorem availabilityFilter_today (now : WallClock) (d : Int) (b : Bool) :
    (d ≠ now.day → getAvailableTimeSlots now (some d) b = TIME_SLOTS) ∧
    (d = now.day → ∀ s : String,
      s ∈ getAvailableTimeSlots now (some d) b ↔
        s ∈ TIME_SLOTS ∧
          ((parseSlot s).1 > now.hour ∨
            ((parseSlot s).1 = now.hour ∧ (parseSlot s).2 > now.minute))) := by
  constructor
  · intro h
    simp [getAvailableTimeSlots, h]
  · intro h s
    subst h
    simp only [getAvailableTimeSlots, not_true, if_false, List.mem_filter, ite_not]
    rw [slotLater_iff]

/-- Witness for C2: at 14:07 on the current day, "14:00" is excluded and
"14:15" is included; on another day the sequence is untouched. -/
theorem availabilityFilter_today_witness :
    getAvailableTimeSlots ⟨5, 14, 7⟩ (some 4) true = TIME_SLOTS ∧
    "14:15" ∈ getAvailableTimeSlots ⟨5, 14, 7⟩ (some 5) false ∧
    "14:00" ∉ getAvailableTimeSlots ⟨5, 14, 7⟩ (some 5) false := by
  refine ⟨(availabilityFilter_today ⟨5, 14, 7⟩ 4 true).1 (by decide), ?_, ?_⟩
  · exact ((availabilityFilter_today ⟨5, 14, 7⟩ 5 false).2 rfl "14:15").mpr (by decide)
  · intro hmem
    exact absurd (((availabilityFilter_today ⟨5, 14, 7⟩ 5 false).2 rfl "14:00").mp hmem)
      (by decide)

/-- C3: when the end date equals the start date, every slot offered for the
end field is strictly greater than the selected start slot in JS string
order. -/
theorem endSlots_after_start (now : WallClock) (sd ed : Int) (startTime : String)
    (hday : sd = ed) :
    ∀ s ∈ availableEndTimeSlots now (some sd) (some ed) startTime,
      strLtB startTime s = true := by
  intro s hs
  unfold availableEndTimeSlots at hs
  simp only [hday, if_pos, List.mem_filter] at hs
  exact hs.2

/-- Witness for C3 at a concrete state: with start and end on day 7 and start
slot "09:00", the offered slot "09:15" is strictly later. -/
theorem endSlots_after_start_witness : strLtB "09:00" "09:15" = true :=
  endSlots_after_start ⟨0, 0, 0⟩ 7 7 "09:00" rfl "09:15" (by decide)

/-- C10: every sequence the availability filter returns (start or end field)
is a subsequence of the generated 96-slot universe — its elements are
generated slots, in generation order, without duplicates — and an absent
candidate date yields the full sequence. -/
theorem availableSlots_subsequence (now : WallClock) (d : Option Int) (b : Bool)
    (sd ed : Option Int) (startTime : String) :
    (getAvailableTimeSlots now d b).Sublist TIME_SLOTS ∧
    (availableEndTimeSlots now sd ed startTime).Sublist TIME_SLOTS ∧
    (getAvailableTimeSlots now d b).Nodup ∧
    (availableEndTimeSlots now sd ed startTime).Nodup ∧
    getAvailableTimeSlots now none b = TIME_SLOTS ∧
    availableEndTimeSlots now sd none startTime = TIME_SLOTS := by
  refine ⟨gats_sublist .., aets_sublist .., ?_, ?_, rfl, ?_⟩
  · exact List.Nodup.sublist (gats_sublist ..) TIME_SLOTS_nodup
  · exact List.Nodup.sublist (aets_sublist ..) TIME_SLOTS_nodup
  · unfold availableEndTimeSlots getAvailableTimeSlots
    cases sd <;> rfl

/-- C1: a start-side edit that leaves the (set) end instant ≤ the new start
instant auto-advances the end to exactly one hour (60 minutes) after the new
start; a direct end-side edit never adjusts anything, it stores exactly the
given end date and time. -/
theorem autoAdjust_one_hour (st : MeetingTimes) (sd ed : Int) (t : String)
    (ht : t ≠ "") (het : st.endTime ≠ "") (hed : st.endDate = some ed)
    (hle : instantOf ed st.endTime ≤ instantOf sd t) :
    endInstant? (applyEdit st (Edit.setStart (some sd) t)) = some (instantOf sd t + 60) ∧
    ∀ (s : MeetingTimes) (d : Option Int) (u : String),
      applyEdit s (Edit.setEnd d u) = { s with endDate := d, endTime := u } := by
  refine ⟨?_, fun s d u => rfl⟩
  show endInstant? (autoAdjustEnd { st with startDate := some sd, startTime := t }) = _
  unfold autoAdjustEnd
  dsimp only
  rw [if_neg ht, hed]
  dsimp only
  rw [if_neg het, if_pos hle]
  unfold endInstant? instantOf
  dsimp only [Option.map_some']
  rw [slotMinutesN_formatHM _ (by omega)]
  congr 1
  omega

/-- Witness for C1: start 09:00 on day 20240 (2025-06-01) changed to 15:00
while the end is 10:00 on the same day; the end becomes 16:00 on that day. -/
theorem autoAdjust_one_hour_witness :
    endInstant? (applyEdit ⟨some 20240, "09:00", some 20240, "10:00"⟩
        (Edit.setStart (some 20240) "15:00")) = some (instantOf 20240 "15:00" + 60) ∧
    (applyEdit ⟨some 20240, "09:00", some 20240, "10:00"⟩
        (Edit.setStart (some 20240) "15:00")).endDate = some 20240 ∧
    (applyEdit ⟨some 20240, "09:00", some 20240, "10:00"⟩
        (Edit.setStart (some 20240) "15:00")).endTime = "16:00" := by
  refine ⟨(autoAdjust_one_hour ⟨some 20240, "09:00", some 20240, "10:00"⟩ 20240 20240 "15:00"
    (by decide) (by decide) rfl (by decide)).1, by decide, by decide⟩

/-- C9: submitting with an absent start or end date fails the "Missing
fields" validation and produces no saved record; the underlying builder
returns the empty sentinel, not an instant, for an absent date. -/
theorem resolver_requires_date (subject : String) (sd ed : Option Int)
    (startTime endTime : String) :
    ((sd = none ∨ ed = none) →
      handleSubmit subject sd ed startTime endTime = SubmitOutcome.missingFields) ∧
    ∀ t, buildISODateTime none t = "" := by
  refine ⟨?_, fun t => rfl⟩
  intro h
  unfold handleSubmit
  rw [if_pos (by tauto)]

/-- Witness for C9 at a concrete submission with the start date absent. -/
theorem resolver_requires_date_witness :
    handleSubmit "Kickoff" none (some 3) "09:00" "10:00" = SubmitOutcome.missingFields :=
  (resolver_requires_date "Kickoff" none (some 3) "09:00" "10:00").1 (Or.inl rfl)

/-- C4: a route with no permission record is allowed for every role; with a
record, role "admin" selects the admin flag, "manager" the manager flag, and
any other role string the user flag. -/
theorem permissionGate_role_mapping (perms : List PagePermission) (role route : String) :
    (perms.find? (fun p => p.route == route) = none → hasAccess perms role route = true) ∧
    ∀ p, perms.find? (fun p => p.route == route) = some p →
      hasAccess perms role route =
        if role = "admin" then p.admin_access
        else if role = "manager" then p.manager_access
        else p.user_access := by
  constructor
  · intro h
    unfold hasAccess
    rw [h]
  · intro p h
    unfold hasAccess
    rw [h]
    dsimp only
    rcases eq_or_ne role "admin" with h1 | h1
    · subst h1; simp
    · rcases eq_or_ne role "manager" with h2 | h2
      · subst h2; simp
      · rw [if_neg h1, if_neg h2]
        split
        · exact absurd rfl h1
        · exact absurd rfl h2
        · rfl

/-- Witness for C4: an unmapped route is allowed to a manager, while a mapped
route with the manager flag off is denied and an unknown role string falls
back to the user flag. -/
theorem permissionGate_role_mapping_witness :
    hasAccess [⟨"/deals", true, false, true⟩] "manager" "/settings" = true ∧
    hasAccess [⟨"/deals", true, false, true⟩] "manager" "/deals" = false ∧
    hasAccess [⟨"/deals", true, false, true⟩] "viewer" "/deals" = true := by
  refine ⟨(permissionGate_role_mapping _ "manager" "/settings").1 (by decide), ?_, ?_⟩
  · have h := (permissionGate_role_mapping [⟨"/deals", true, false, true⟩] "manager" "/deals").2
      ⟨"/deals", true, false, true⟩ (by decide)
    simpa using h
  · have h := (permissionGate_role_mapping [⟨"/deals", true, false, true⟩] "viewer" "/deals").2
      ⟨"/deals", true, false, true⟩ (by decide)
    simpa using h

/-- C6: with a non-empty subject, a present-but-empty attendee list, and
start/end present, the field validation passes and the handler proceeds to
the provisioning phase; with an empty subject it answers 400 ("Missing
required fields") with no network call issued. -/
theorem provisioner_attendees_optional (w : World) (uid email : String)
    (hauth : w.authedUser = some (uid, email)) (s st et : String)
    (hs : s ≠ "") (hst : st ≠ "") (het : et ≠ "") :
    serve w "POST" ⟨some s, some [], some st, some et⟩ = provisionPhase w email s st et ∧
    ∀ atts stT etT, serve w "POST" ⟨some "", atts, stT, etT⟩ =
      (ServeOutcome.status400, []) := by
  constructor
  · simp [serve, hauth, truthyStr, truthyList, bne_iff_ne, hs, hst, het]
  · intro atts stT etT
    simp [serve, hauth, truthyStr]

/-- Witness for C6 on the healthy world and the empty-attendee request. -/
theorem provisioner_attendees_optional_witness :
    serve sampleWorld "POST" emptyAttendeesReq =
      provisionPhase sampleWorld "organizer@example.com" "Standup"
        "2025-06-01T09:00:00.000Z" "2025-06-01T10:00:00.000Z" ∧
    serve sampleWorld "POST" ⟨some "", some [], some "x", some "y"⟩ =
      (ServeOutcome.status400, []) := by
  have h := provisioner_attendees_optional sampleWorld "app-user-1" "organizer@example.com" rfl
    "Standup" "2025-06-01T09:00:00.000Z" "2025-06-01T10:00:00.000Z"
    (by decide) (by decide) (by decide)
  exact ⟨h.1, h.2 (some []) (some "x") (some "y")⟩

/-- C7 counterexample: a request whose attendee list is present but empty is
not rejected — on a healthy world the very same request reaches the network
(token, lookup, create) and returns 200, refuting "empty attendee list ⇒
InvalidRequest before any network call". -/
theorem emptyAttendees_accepted_counterexample :
    emptyAttendeesReq.attendees = some [] ∧
    (serve sampleWorld "POST" emptyAttendeesReq).1 = ServeOutcome.status200 sampleMeeting ∧
    (serve sampleWorld "POST" emptyAttendeesReq).2 =
      [GraphCall.tokenRequest, GraphCall.userLookup "organizer@example.com",
       GraphCall.createMeeting "uid-1"] := by
  refine ⟨rfl, rfl, rfl⟩

/-- C7 as amended: the validation requires the subject, startTime and endTime
to be present and non-empty and the attendees field to be *present* (any
array, empty included, passes); whenever that fails the handler answers 400
with no network call, in particular when the attendees field is absent. -/
theorem provisioner_requires_present_fields (w : World) (uid email : String)
    (hauth : w.authedUser = some (uid, email)) (req : MeetingRequest)
    (h : ¬(truthyStr req.subject = true ∧ truthyList req.attendees = true ∧
           truthyStr req.startTime = true ∧ truthyStr req.endTime = true)) :
    serve w "POST" req = (ServeOutcome.status400, []) ∧
    ∀ r : MeetingRequest, r.attendees = none →
      serve w "POST" r = (ServeOutcome.status400, []) := by
  constructor
  · have hb : (truthyStr req.subject && truthyList req.attendees &&
        truthyStr req.startTime && truthyStr req.endTime) = false := by
      rcases Bool.eq_false_or_eq_true (truthyStr req.subject) with h1 | h1 <;>
        rcases Bool.eq_false_or_eq_true (truthyList req.attendees) with h2 | h2 <;>
          rcases Bool.eq_false_or_eq_true (truthyStr req.startTime) with h3 | h3 <;>
            rcases Bool.eq_false_or_eq_true (truthyStr req.endTime) with h4 | h4 <;>
              simp_all
    simp [serve, hauth, hb]
  · intro r hr
    simp [serve, hauth, truthyList, hr]

/-- Witness for the amended C7: a request without an attendees field is
answered 400 with an empty call trace. -/
theorem provisioner_requires_present_fields_witness :
    serve sampleWorld "POST" ⟨some "Standup", none, some "x", some "y"⟩ =
      (ServeOutcome.status400, []) :=
  (provisioner_requires_present_fields sampleWorld "app-user-1" "organizer@example.com" rfl
    ⟨some "Standup", none, some "x", some "y"⟩ (by decide)).1

/-- C8: when the organizer directory lookup fails, `createOnlineMeeting`
throws `OrganizerNotFoundError` whose message names the likely causes
(missing `User.Read.All` directory permission, or the user being absent from
the tenant), and no online-meeting creation request is issued in that run. -/
theorem organizerLookupFailure_no_create (g : Graph) (subject st et email : String)
    (h : g.userLookup email = LookupOutcome.failed) :
    createOnlineMeeting g subject st et email =
      (Except.error (ProvisionError.organizerNotFound (organizerNotFoundMsg email)),
       [GraphCall.userLookup email]) ∧
    ∀ uid, GraphCall.createMeeting uid ∉ (createOnlineMeeting g subject st et email).2 := by
  have h1 : createOnlineMeeting g subject st et email =
      (Except.error (ProvisionError.organizerNotFound (organizerNotFoundMsg email)),
       [GraphCall.userLookup email]) := by
    unfold createOnlineMeeting
    rw [h]
  refine ⟨h1, fun uid hmem => ?_⟩
  rw [h1] at hmem
  simp at hmem

/-- Witness for C8 on a graph whose lookup always fails. -/
theorem organizerLookupFailure_no_create_witness :
    createOnlineMeeting failGraph "Standup" "2025-06-01T09:00:00.000Z"
        "2025-06-01T10:00:00.000Z" "organizer@example.com" =
      (Except.error (ProvisionError.organizerNotFound
        (organizerNotFoundMsg "organizer@example.com")),
       [GraphCall.userLookup "organizer@example.com"]) :=
  (organizerLookupFailure_no_create failGraph "Standup" "2025-06-01T09:00:00.000Z"
    "2025-06-01T10:00:00.000Z" "organizer@example.com" rfl).1
